import Mathlib

/-!
Shallow embedding of the Fusion-OS kernel core (physical memory manager,
page-table engine, virtual memory manager admission checks, scheduler and
IPC), together with theorems settling the specification claims.

Machine integers are modelled as `Nat` with explicit reduction modulo
`2 ^ 32` (`U32`) or `2 ^ 64` (`U64`) exactly where the C code performs
32-bit or 64-bit wrap-around arithmetic.  C `NULL` pointers are modelled as
`Option`-`none` for results and as address `0` where the code compares a
pointer against `NULL`.
-/

namespace FusionOS

/-- Wrap-around modulus of the C `uint32_t` type. -/
def U32 : Nat := 4294967296

/-- Wrap-around modulus of the C `uint64_t` type. -/
def U64 : Nat := 18446744073709551616

/-- Pointwise update of a function modelling a C array or raw memory. -/
def updF {α : Type} (f : Nat → α) (x : Nat) (v : α) : Nat → α :=
  fun y => if y = x then v else f y

namespace Pmm

/-- `PAGE_SIZE` from src/fusion_os/gecko/pmm.h. -/
def PAGE_SIZE : Nat := 4096

/-- `MAX_ORDER` from src/fusion_os/gecko/pmm.h. -/
def MAX_ORDER : Nat := 20

/-- `pages_from_order` from src/fusion_os/gecko/pmm.c (`1 << order`; every
call site has already checked `order <= MAX_ORDER`, so the 32-bit shift
does not overflow). -/
def pages_from_order (order : Nat) : Nat := 2 ^ order

/-- `memory_map_entry_t` from src/fusion_os/gecko/pmm.h. -/
structure MemoryMapEntry where
  base : Nat
  length : Nat
  type : Nat
deriving DecidableEq

/-- State of the physical memory manager: the fields of the `pmm_t` global
`global_pmm`, the `pmm_initialized` flag (`inited`), the accepted
`memory_regions` array, and `orderField`, the `memory_block_t.order`
header that `pmm_free_pages`/`pmm_alloc_pages` store into the raw memory
of each block (indexed by block address).  Free lists hold block
addresses, head of the C singly-linked list first. -/
structure PmmState where
  inited : Bool
  free_lists : Nat → List Nat
  memory_start : Nat
  memory_end : Nat
  total_pages : Nat
  free_pages : Nat
  reserved_pages : Nat
  orderField : Nat → Nat
  regions : List MemoryMapEntry

/-- The boot state: all static globals are zero-initialized. -/
def pmmBoot : PmmState :=
  { inited := false
    free_lists := fun _ => []
    memory_start := 0
    memory_end := 0
    total_pages := 0
    free_pages := 0
    reserved_pages := 0
    orderField := fun _ => 0
    regions := [] }

/-- `pmm_init` from src/fusion_os/gecko/pmm.c: zeroes the `pmm_t` structure
(the free-list heads become `NULL`) and sets the flag.  It does not touch
the raw memory of blocks (`orderField`) nor the `memory_regions` array. -/
def pmm_init (s : PmmState) : PmmState :=
  if s.inited then s
  else
    { s with
      inited := true
      free_lists := fun _ => []
      memory_start := 0
      memory_end := 0
      total_pages := 0
      free_pages := 0
      reserved_pages := 0 }

/-- `pmm_set_memory_map` from src/fusion_os/gecko/pmm.c.  Only entries with
`type == MEMORY_AVAILABLE` (0) are kept, at most `MAX_MEMORY_REGIONS`
(32) of them; total and free page counts are accumulated with `uint32_t`
wrap-around.  The free lists are not modified by this function.  When no
entry is Available the C code reads `memory_regions[0]` and
`memory_regions[count - 1]` out of bounds; that read is modelled as the
zero entry. -/
def pmm_set_memory_map (s0 : PmmState) (map : List MemoryMapEntry) : PmmState :=
  let s := if s0.inited then s0 else pmm_init s0
  let avail := (map.filter (fun e => e.type == 0)).take 32
  let total := avail.foldl (fun a e => (a + e.length / PAGE_SIZE) % U32) s.total_pages
  let free := avail.foldl (fun a e => (a + e.length / PAGE_SIZE) % U32) s.free_pages
  { s with
    regions := avail
    total_pages := total
    free_pages := free
    memory_start := (avail.headD ⟨0, 0, 0⟩).base
    memory_end := (avail.getLastD ⟨0, 0, 0⟩).base + (avail.getLastD ⟨0, 0, 0⟩).length }

/-- `validate_allocation` from src/fusion_os/gecko/pmm.c (admission checks).
The two gigabyte figures are computed in `uint32_t`, so
`total_pages * PAGE_SIZE` and `requested_pages * PAGE_SIZE` wrap modulo
`2 ^ 32` before the division. -/
def validate_allocation (s : PmmState) (order : Nat) : Bool :=
  let requested_pages := pages_from_order order
  let total_memory_gb := s.total_pages * PAGE_SIZE % U32 / (1024 * 1024 * 1024)
  let requested_gb := requested_pages * PAGE_SIZE % U32 / (1024 * 1024 * 1024)
  if requested_gb > total_memory_gb && total_memory_gb > 0 then false
  else if requested_pages > s.total_pages / 2 then false
  else if requested_pages > 100 * 1024 * 1024 / PAGE_SIZE then false
  else true

/-- The scan `while (current_order <= MAX_ORDER && free_lists[current_order]
== NULL) current_order++` of `pmm_alloc_pages`, returning the first order
`>= k` with a non-empty list, or `none` past `MAX_ORDER`.  `fuel` bounds
the recursion; `MAX_ORDER + 2` steps always suffice. -/
def find_nonempty_from (fl : Nat → List Nat) (k : Nat) : Nat → Option Nat
  | 0 => none
  | fuel + 1 =>
    if k > MAX_ORDER then none
    else if fl k = [] then find_nonempty_from fl (k + 1) fuel
    else some k

/-- The split loop of `pmm_alloc_pages`: while `current > target`, pop the
head block of list `current`, give the upper buddy the order header
`current - 1` and push it onto list `current - 1`.  Note that, exactly as
in the C code, the popped lower half is dropped: only the buddy is pushed
back, and the next iteration pops that buddy again.  An empty list is
unreachable here (the C code would dereference `NULL`); it is modelled as
stopping the loop. -/
def split_loop (fl : Nat → List Nat) (of : Nat → Nat) (current target : Nat) :
    Nat → ((Nat → List Nat) × (Nat → Nat))
  | 0 => (fl, of)
  | fuel + 1 =>
    if current ≤ target then (fl, of)
    else
      match fl current with
      | [] => (fl, of)
      | b :: rest =>
        let buddy_order := current - 1
        let buddy := b + pages_from_order buddy_order * PAGE_SIZE
        let fl1 := updF fl current rest
        let fl2 := updF fl1 buddy_order (buddy :: fl1 buddy_order)
        let of1 := updF of buddy buddy_order
        split_loop fl2 of1 buddy_order target fuel

/-- `pmm_alloc_pages` from src/fusion_os/gecko/pmm.c.  Returns the updated
state and the allocated block address (`none` models returning `NULL`).
The final pop of an empty list is unreachable (the loop above pushed a
block at `order`); the C code would dereference `NULL` there, modelled as
an out-of-memory failure. -/
def pmm_alloc_pages (s : PmmState) (order : Nat) : PmmState × Option Nat :=
  if !s.inited || order > MAX_ORDER then (s, none)
  else if !validate_allocation s order then (s, none)
  else
    match find_nonempty_from s.free_lists order (MAX_ORDER + 2) with
    | none => (s, none)
    | some k =>
      let p := split_loop s.free_lists s.orderField k order (k - order)
      match p.1 order with
      | [] => (s, none)
      | b :: rest =>
        ({ s with
            free_lists := updF p.1 order rest
            orderField := p.2
            free_pages := (s.free_pages + U32 - pages_from_order order) % U32 },
          some b)

/-- Intermediate state of the coalescing loop of `pmm_free_pages`. -/
structure CoalesceSt where
  fl : Nat → List Nat
  of : Nat → Nat
  block : Nat
  order : Nat

/-- The coalescing loop of `pmm_free_pages`: while `order < MAX_ORDER`, the
buddy is `block XOR (2 ^ order * PAGE_SIZE)`; the loop stops unless the
buddy's stored order header equals `order` and the buddy is found on list
`order` (the C code walks the list and unlinks the first occurrence).  On
a merge the lower address becomes the block and its order header is
bumped. -/
def coalesce_loop (c : CoalesceSt) : Nat → CoalesceSt
  | 0 => c
  | fuel + 1 =>
    if c.order ≥ MAX_ORDER then c
    else
      let buddy := Nat.xor c.block (pages_from_order c.order * PAGE_SIZE)
      if c.of buddy ≠ c.order then c
      else if buddy ∈ c.fl c.order then
        let newBlock := if c.block > buddy then buddy else c.block
        coalesce_loop
          { fl := updF c.fl c.order ((c.fl c.order).erase buddy)
            of := updF c.of newBlock (c.order + 1)
            block := newBlock
            order := c.order + 1 } fuel
      else c

/-- `pmm_free_pages` from src/fusion_os/gecko/pmm.c.  `addr = 0` models a
`NULL` pointer (no-op).  The block's order header is written, buddies are
coalesced, the resulting block is pushed onto the list of the final
order, and — exactly as in the C code — `free_pages` is incremented by
`2 ^ order` for the final (post-coalescing) order. -/
def pmm_free_pages (s : PmmState) (addr order : Nat) : PmmState :=
  if !s.inited || order > MAX_ORDER || addr == 0 then s
  else
    let c0 : CoalesceSt :=
      { fl := s.free_lists, of := updF s.orderField addr order
        block := addr, order := order }
    let c := coalesce_loop c0 (MAX_ORDER - order)
    { s with
      free_lists := updF c.fl c.order (c.block :: c.fl c.order)
      orderField := c.of
      free_pages := (s.free_pages + pages_from_order c.order) % U32 }

/-- `pmm_alloc_page` from src/fusion_os/gecko/pmm.c. -/
def pmm_alloc_page (s : PmmState) : PmmState × Option Nat :=
  pmm_alloc_pages s 0

/-- `pmm_free_page` from src/fusion_os/gecko/pmm.c. -/
def pmm_free_page (s : PmmState) (addr : Nat) : PmmState :=
  pmm_free_pages s addr 0

/-- `pmm_get_total_memory` from src/fusion_os/gecko/pmm.c (`uint32_t`
multiplication). -/
def pmm_get_total_memory (s : PmmState) : Nat :=
  s.total_pages * PAGE_SIZE % U32

/-- `pmm_get_free_memory` from src/fusion_os/gecko/pmm.c. -/
def pmm_get_free_memory (s : PmmState) : Nat :=
  s.free_pages * PAGE_SIZE % U32

/-- `pmm_get_used_memory` from src/fusion_os/gecko/pmm.c (`uint32_t`
subtraction and multiplication). -/
def pmm_get_used_memory (s : PmmState) : Nat :=
  (s.total_pages + U32 - s.free_pages) % U32 * PAGE_SIZE % U32

end Pmm

namespace Vmm

/-- `validate_allocation` from the VMM (src/unnamed/part_005, vmm.c): the
three admission checks against the PFA statistics.  `requested_size` is a
`size_t` and is compared against the `uint32_t` byte counts returned by
the PFA getters. -/
def validate_allocation (pmm : Pmm.PmmState) (requested_size : Nat) : Bool :=
  let available_memory := Pmm.pmm_get_free_memory pmm
  let total_system_memory := Pmm.pmm_get_total_memory pmm
  if requested_size > available_memory then false
  else if requested_size > total_system_memory / 2 then false
  else if requested_size > 100 * 1024 * 1024 then false
  else true

/-- `vmm_can_allocate_memory` from src/unnamed/part_005 (vmm.c). -/
def vmm_can_allocate_memory (pmm : Pmm.PmmState) (requested_size : Nat) : Bool :=
  validate_allocation pmm requested_size

end Vmm

namespace Pt

/-- Physical memory as seen by the page-table engine
(src/unnamed/part_004, page_tables.c): the 64-bit entry stored at each
byte address.  Entry `i` of the table based at `b` lives at address
`b + 8 * i`, exactly as the C pointer arithmetic `&pt[i]`. -/
def Mem : Type := Nat → Nat

/-- Write the 64-bit entry at address `a`. -/
def writeE (m : Mem) (a v : Nat) : Mem :=
  fun x => if x = a then v else m x

/-- `memset(page, 0, PAGE_SIZE)` over the 4096 bytes of the page at
`base`. -/
def zeroPage (m : Mem) (base : Nat) : Mem :=
  fun x => if base ≤ x ∧ x < base + 4096 then 0 else m x

/-- `PML4_INDEX` from src/fusion_os/gecko/page_tables.h. -/
def PML4_INDEX (a : Nat) : Nat := (a >>> 39) &&& 0x1ff

/-- `PDPT_INDEX` from src/fusion_os/gecko/page_tables.h. -/
def PDPT_INDEX (a : Nat) : Nat := (a >>> 30) &&& 0x1ff

/-- `PD_INDEX` from src/fusion_os/gecko/page_tables.h. -/
def PD_INDEX (a : Nat) : Nat := (a >>> 21) &&& 0x1ff

/-- `PT_INDEX` from src/fusion_os/gecko/page_tables.h. -/
def PT_INDEX (a : Nat) : Nat := (a >>> 12) &&& 0x1ff

/-- `PAGE_OFFSET` from src/fusion_os/gecko/page_tables.h. -/
def PAGE_OFFSET (a : Nat) : Nat := a &&& 0xfff

/-- `PTE_P` (present) from src/fusion_os/gecko/page_tables.h. -/
def PTE_P : Nat := 1

/-- `PTE_W` (writable) from src/fusion_os/gecko/page_tables.h. -/
def PTE_W : Nat := 2

/-- `pte_present` from src/fusion_os/gecko/page_tables.h. -/
def pte_present (e : Nat) : Bool := e &&& PTE_P != 0

/-- `pte_physical_address` from src/fusion_os/gecko/page_tables.h. -/
def pte_physical_address (e : Nat) : Nat := e &&& 0x000ffffffffff000

/-- `create_pte` from src/fusion_os/gecko/page_tables.h. -/
def create_pte (physical_addr flags : Nat) : Nat :=
  (physical_addr &&& 0x000ffffffffff000) ||| flags

/-- The non-canonical-address test of walk/map: `addr >
0x00007fffffffffff && addr < 0xffff800000000000`. -/
def non_canonical (a : Nat) : Bool :=
  decide (0x00007fffffffffff < a) && decide (a < 0xffff800000000000)

/-- `walk_page_table` from src/unnamed/part_004 (page_tables.c): descends
the four levels and returns the address of the leaf entry
(`&pt[PT_INDEX(addr)]`), or `none` where the C code returns `NULL`
(non-canonical address or a non-present interior entry). -/
def walk_page_table (m : Mem) (root vaddr : Nat) : Option Nat :=
  if non_canonical vaddr then none
  else
    let e4 := m (root + 8 * PML4_INDEX vaddr)
    if !pte_present e4 then none
    else
      let e3 := m (pte_physical_address e4 + 8 * PDPT_INDEX vaddr)
      if !pte_present e3 then none
      else
        let e2 := m (pte_physical_address e3 + 8 * PD_INDEX vaddr)
        if !pte_present e2 then none
        else some (pte_physical_address e2 + 8 * PT_INDEX vaddr)

/-- `create_page_table_page` from src/unnamed/part_004 (page_tables.c).
`pmm_alloc_page` is modelled by popping the next address from `allocs`,
the stream of pages the PFA hands out (an empty stream models `NULL`).
A successfully allocated page is zeroed; `NULL` (address 0) is not. -/
def create_page_table_page (m : Mem) (allocs : List Nat) : Mem × List Nat × Nat :=
  match allocs with
  | [] => (m, [], 0)
  | p :: rest => if p = 0 then (m, rest, 0) else (zeroPage m p, rest, p)

/-- One interior step of `map_virtual_address`: if the entry at address
`ea` is not present, allocate a fresh table page and store
`create_pte(page, PTE_P | PTE_W)` into it (note: the C code does not
check the allocation against `NULL` here). -/
def ensure_entry (m : Mem) (allocs : List Nat) (ea : Nat) : Mem × List Nat :=
  if pte_present (m ea) then (m, allocs)
  else
    let r := create_page_table_page m allocs
    (writeE r.1 ea (create_pte r.2.2 (PTE_P ||| PTE_W)), r.2.1)

/-- `map_virtual_address` from src/unnamed/part_004 (page_tables.c):
creates missing interior tables, then writes the leaf entry; fails with
`-1` on a non-canonical address or an already-present leaf (in the
latter case the interior tables created on the way are retained). -/
def map_virtual_address (m : Mem) (allocs : List Nat) (root vaddr physical_addr flags : Nat) :
    Mem × List Nat × Int :=
  if non_canonical vaddr then (m, allocs, -1)
  else
    let a4 := root + 8 * PML4_INDEX vaddr
    let r4 := ensure_entry m allocs a4
    let a3 := pte_physical_address (r4.1 a4) + 8 * PDPT_INDEX vaddr
    let r3 := ensure_entry r4.1 r4.2 a3
    let a2 := pte_physical_address (r3.1 a3) + 8 * PD_INDEX vaddr
    let r2 := ensure_entry r3.1 r3.2 a2
    let a1 := pte_physical_address (r2.1 a2) + 8 * PT_INDEX vaddr
    if pte_present (r2.1 a1) then (r2.1, r2.2, -1)
    else (writeE r2.1 a1 (create_pte physical_addr flags), r2.2, 0)

/-- `unmap_virtual_address` from src/unnamed/part_004 (page_tables.c):
clears the leaf entry found by the walk, if any. -/
def unmap_virtual_address (m : Mem) (root vaddr : Nat) : Mem :=
  match walk_page_table m root vaddr with
  | some ea => writeE m ea 0
  | none => m

/-- `get_physical_address` from src/unnamed/part_004 (page_tables.c):
`none` models returning `NULL`. -/
def get_physical_address (m : Mem) (root vaddr : Nat) : Option Nat :=
  match walk_page_table m root vaddr with
  | some ea =>
    if pte_present (m ea) then
      some (pte_physical_address (m ea) + PAGE_OFFSET vaddr)
    else none
  | none => none

/-- Address of the PML4 entry read by `walk_page_table`. -/
def walkE4 (root vaddr : Nat) : Nat := root + 8 * PML4_INDEX vaddr

/-- Address of the PDPT entry read by `walk_page_table`. -/
def walkE3 (m : Mem) (root vaddr : Nat) : Nat :=
  pte_physical_address (m (walkE4 root vaddr)) + 8 * PDPT_INDEX vaddr

/-- Address of the PD entry read by `walk_page_table`. -/
def walkE2 (m : Mem) (root vaddr : Nat) : Nat :=
  pte_physical_address (m (walkE3 m root vaddr)) + 8 * PD_INDEX vaddr

end Pt

namespace Sched

/-- `TASK_RUNNING` from src/fusion_os/gecko/scheduler.h. -/
def TASK_RUNNING : Nat := 0

/-- `TASK_READY` from src/fusion_os/gecko/scheduler.h. -/
def TASK_READY : Nat := 1

/-- `TASK_BLOCKED` from src/fusion_os/gecko/scheduler.h. -/
def TASK_BLOCKED : Nat := 2

/-- `TASK_TERMINATED` from src/fusion_os/gecko/scheduler.h. -/
def TASK_TERMINATED : Nat := 4

/-- `SCHED_RR` from src/fusion_os/gecko/scheduler.h. -/
def SCHED_RR : Nat := 1

/-- `MAX_TASKS` from src/fusion_os/gecko/scheduler.h. -/
def MAX_TASKS : Nat := 256

/-- `DEFAULT_TIME_SLICE` from scheduler.c. -/
def DEFAULT_TIME_SLICE : Nat := 50

/-- `task_t` from src/fusion_os/gecko/scheduler.h.  The function pointer
`task_function` and the opaque stack pointer are modelled as numbers
(addresses); `kernel_stack` is `none` for `NULL`. -/
structure TaskRec where
  task_id : Nat
  task_name : String
  state : Nat
  priority : Nat
  policy : Nat
  time_slice : Nat
  time_remaining : Nat
  kernel_stack : Option Nat
  stack_size : Nat
  creation_time : Nat
  last_scheduled : Nat
  total_cpu_time : Nat
  task_function : Nat
deriving DecidableEq

/-- The all-zero task record (`memset(tasks, 0, sizeof(tasks))`). -/
def zeroTask : TaskRec :=
  { task_id := 0, task_name := "", state := 0, priority := 0, policy := 0
    time_slice := 0, time_remaining := 0, kernel_stack := none
    stack_size := 0, creation_time := 0, last_scheduled := 0
    total_cpu_time := 0, task_function := 0 }

/-- The scheduler's static state (scheduler.c, embedded in
src/fusion_os/gecko/ipc.h): the `tasks` array (of length `MAX_TASKS`),
the three intrusive queues holding task indices (C list nodes whose
`data` points at the task), `current_task` as an index, and the
counters.  `task_count` and `next_task_id` are `uint32_t`. -/
structure SchedState where
  tasks : List TaskRec
  ready : List Nat
  blocked : List Nat
  sleeping : List Nat
  current : Option Nat
  next_task_id : Nat
  task_count : Nat
  running : Bool
  uptime : Nat
deriving DecidableEq

/-- `scheduler_init` from scheduler.c: zeroed task array, empty queues,
`next_task_id = 1`. -/
def schedInit : SchedState :=
  { tasks := List.replicate MAX_TASKS zeroTask
    ready := [], blocked := [], sleeping := []
    current := none, next_task_id := 1, task_count := 0
    running := false, uptime := 0 }

/-- The first array index whose record satisfies `p`: the scan
`while (i < MAX_TASKS && !p(tasks[i])) i++` used by the free-slot search
and by `find_task_by_id`. -/
def scanIdx (p : TaskRec → Bool) : List TaskRec → Option Nat
  | [] => none
  | t :: ts => if p t then some 0 else (scanIdx p ts).map (· + 1)

/-- `list_remove` from src/fusion_os/common/list.c on a queue of task
indices: a no-op on the empty list, otherwise unlinks the first
occurrence of the node (absent nodes are left alone; the C code would
additionally corrupt the count in that case, but no modelled call reaches
it). -/
def listRemove (l : List Nat) (x : Nat) : List Nat :=
  if l = [] then l else l.erase x

/-- The record at index `i` of the task array (C pointer `&tasks[i]`). -/
def taskAt (s : SchedState) (i : Nat) : TaskRec :=
  s.tasks.getD i zeroTask

/-- `find_task_by_id` from scheduler.c: first index with a matching id and
a non-Terminated state. -/
def find_task_by_id (s : SchedState) (task_id : Nat) : Option Nat :=
  scanIdx (fun t => t.task_id == task_id && !(t.state == TASK_TERMINATED)) s.tasks

/-- `select_next_task` from scheduler.c: the first ready-queue node whose
task has state `TASK_READY`; failing that, the current task if it is
still `TASK_RUNNING`. -/
def select_next_task (s : SchedState) : Option Nat :=
  match s.ready.find? (fun i => (taskAt s i).state == TASK_READY) with
  | some i => some i
  | none =>
    match s.current with
    | some c => if (taskAt s c).state == TASK_RUNNING then some c else none
    | none => none

/-- `scheduler_create_task` from scheduler.c.  `stackAlloc` is the result
of the `vmm_alloc_kernel_memory(8192)` call (`none` for `NULL`).  The
record is initialized and `next_task_id` incremented before the stack
allocation; on allocation failure the function returns `-1` leaving that
record in place.  On success the task is linked at the ready-queue tail
and the id is returned. -/
def scheduler_create_task (s : SchedState) (fn : Nat) (name : String)
    (priority : Nat) (stackAlloc : Option Nat) : SchedState × Int :=
  if MAX_TASKS ≤ s.task_count then (s, -1)
  else
    match scanIdx (fun t => t.state == TASK_TERMINATED) s.tasks with
    | none => (s, -1)
    | some i =>
      let t : TaskRec :=
        { task_id := s.next_task_id, task_name := name.take 31
          state := TASK_READY, priority := priority, policy := SCHED_RR
          time_slice := DEFAULT_TIME_SLICE, time_remaining := DEFAULT_TIME_SLICE
          kernel_stack := none, stack_size := 8192
          creation_time := s.uptime, last_scheduled := 0, total_cpu_time := 0
          task_function := fn }
      let s1 := { s with tasks := s.tasks.set i t
                         next_task_id := (s.next_task_id + 1) % U32 }
      match stackAlloc with
      | none => (s1, -1)
      | some stk =>
        let s2 := { s1 with tasks := s1.tasks.set i { t with kernel_stack := some stk } }
        ({ s2 with ready := s2.ready ++ [i]
                   task_count := (s2.task_count + 1) % U32 },
          Int.ofNat t.task_id)

/-- `scheduler_create_thread` from scheduler.c: caller-provided stack, name
`"thread"`, priority `PRIORITY_NORMAL`; otherwise the same slot search
and initialization. -/
def scheduler_create_thread (s : SchedState) (stack : Nat) (stack_size : Nat)
    (fn : Nat) : SchedState × Int :=
  if MAX_TASKS ≤ s.task_count then (s, -1)
  else
    match scanIdx (fun t => t.state == TASK_TERMINATED) s.tasks with
    | none => (s, -1)
    | some i =>
      let t : TaskRec :=
        { task_id := s.next_task_id, task_name := "thread"
          state := TASK_READY, priority := 1, policy := SCHED_RR
          time_slice := DEFAULT_TIME_SLICE, time_remaining := DEFAULT_TIME_SLICE
          kernel_stack := some stack, stack_size := stack_size
          creation_time := s.uptime, last_scheduled := 0, total_cpu_time := 0
          task_function := fn }
      ({ s with tasks := s.tasks.set i t
                next_task_id := (s.next_task_id + 1) % U32
                ready := s.ready ++ [i]
                task_count := (s.task_count + 1) % U32 },
        Int.ofNat t.task_id)

/-- Update the record at index `i` of the task array. -/
def setTask (s : SchedState) (i : Nat) (t : TaskRec) : SchedState :=
  { s with tasks := s.tasks.set i t }

/-- `scheduler_schedule` from scheduler.c: pick the next task; return if
there is none or it is the current one; otherwise account CPU time for a
still-running old task (64-bit wrap-around), mark it Ready and re-queue
it at the ready tail if its slice is unexhausted, then install the new
task as Running with a fresh slice.  The `context_switch` assembly
routine affects no modelled state. -/
def scheduler_schedule (s : SchedState) : SchedState :=
  if !s.running then s
  else
    match select_next_task s with
    | none => s
    | some n =>
      if s.current = some n then s
      else
        let s1 :=
          match s.current with
          | some o =>
            let t := taskAt s o
            if t.state == TASK_RUNNING then
              let t1 := { t with
                total_cpu_time := (t.total_cpu_time + (s.uptime + U64 - t.last_scheduled)) % U64
                state := TASK_READY }
              let sA := setTask s o t1
              if t1.policy == SCHED_RR && t1.time_remaining > 0 then
                { sA with ready := listRemove sA.ready o ++ [o] }
              else sA
            else s
          | none => s
        let tn := taskAt s1 n
        { setTask s1 n
            { tn with state := TASK_RUNNING, time_remaining := tn.time_slice
                      last_scheduled := s1.uptime }
          with current := some n }

/-- `scheduler_start` from scheduler.c: creates the idle task (priority
`PRIORITY_LOW`), failing with `-1` if that fails; otherwise sets the
running flag and installs the first selected task as Running (without
removing it from the ready queue). -/
def scheduler_start (s : SchedState) (stackAlloc : Option Nat) : SchedState × Int :=
  if s.running then (s, 0)
  else
    let r := scheduler_create_task s 0 "idle" 0 stackAlloc
    if r.2 < 0 then (r.1, -1)
    else
      let s1 := { r.1 with running := true }
      match select_next_task s1 with
      | some i => ({ setTask s1 i { taskAt s1 i with state := TASK_RUNNING }
                       with current := some i }, 0)
      | none => (s1, 0)

/-- `scheduler_yield` from scheduler.c: if the scheduler is running, a
current task exists and its remaining slice is positive, zero the slice,
mark Ready, rotate it to the ready tail (round-robin policy) and
reschedule. -/
def scheduler_yield (s : SchedState) : SchedState :=
  if !s.running then s
  else
    match s.current with
    | none => s
    | some c =>
      let t := taskAt s c
      if t.time_remaining > 0 then
        let s1 := setTask s c { t with time_remaining := 0, state := TASK_READY }
        let s2 :=
          if t.policy == SCHED_RR then
            { s1 with ready := listRemove s1.ready c ++ [c] }
          else s1
        scheduler_schedule s2
      else s

/-- `scheduler_terminate_task` from scheduler.c: mark the task Terminated,
unlink it from all three queues, free its stack (a VMM effect outside
this state) and decrement `task_count` (`uint32_t`, wrapping below
zero). -/
def scheduler_terminate_task (s : SchedState) (task_id : Nat) : SchedState × Int :=
  match find_task_by_id s task_id with
  | none => (s, -1)
  | some i =>
    ({ s with tasks := s.tasks.set i { taskAt s i with state := TASK_TERMINATED }
              ready := listRemove s.ready i
              blocked := listRemove s.blocked i
              sleeping := listRemove s.sleeping i
              task_count := (s.task_count + U32 - 1) % U32 }, 0)

/-- `scheduler_block_task` from scheduler.c: store `reason` as the current
task's state, move it from the ready queue to the blocked-queue tail and
reschedule.  No-op without a current task. -/
def scheduler_block_task (s : SchedState) (reason : Nat) : SchedState :=
  match s.current with
  | none => s
  | some c =>
    let s1 := setTask s c { taskAt s c with state := reason }
    scheduler_schedule
      { s1 with ready := listRemove s1.ready c, blocked := s1.blocked ++ [c] }

/-- `scheduler_unblock_task` from scheduler.c: only a task found in state
`TASK_BLOCKED` is moved back to the ready tail. -/
def scheduler_unblock_task (s : SchedState) (task_id : Nat) : SchedState :=
  match find_task_by_id s task_id with
  | none => s
  | some i =>
    if !((taskAt s i).state == TASK_BLOCKED) then s
    else
      { s with tasks := s.tasks.set i { taskAt s i with state := TASK_READY }
               blocked := listRemove s.blocked i
               ready := s.ready ++ [i] }

/-- One scheduler operation, as listed in the claim: create (task or
thread), start, yield, schedule, block, unblock, terminate.  The stack
allocations and all arguments are universally quantified. -/
inductive SchedStep : SchedState → SchedState → Prop where
  | create (s : SchedState) (fn : Nat) (name : String) (priority : Nat)
      (stackAlloc : Option Nat) :
      SchedStep s (scheduler_create_task s fn name priority stackAlloc).1
  | createThread (s : SchedState) (stack stack_size fn : Nat) :
      SchedStep s (scheduler_create_thread s stack stack_size fn).1
  | start (s : SchedState) (stackAlloc : Option Nat) :
      SchedStep s (scheduler_start s stackAlloc).1
  | yield (s : SchedState) : SchedStep s (scheduler_yield s)
  | schedule (s : SchedState) : SchedStep s (scheduler_schedule s)
  | block (s : SchedState) (reason : Nat) : SchedStep s (scheduler_block_task s reason)
  | unblock (s : SchedState) (task_id : Nat) :
      SchedStep s (scheduler_unblock_task s task_id)
  | terminate (s : SchedState) (task_id : Nat) :
      SchedStep s (scheduler_terminate_task s task_id).1

/-- Scheduler states reachable from `scheduler_init` by any sequence of the
operations above. -/
inductive SchedReachable : SchedState → Prop where
  | init : SchedReachable schedInit
  | step {s s1 : SchedState} : SchedReachable s → SchedStep s s1 → SchedReachable s1

/-- Number of queue links of task index `i`: its occurrences across the
ready, blocked and sleeping queues. -/
def queueCount (s : SchedState) (i : Nat) : Nat :=
  s.ready.count i + s.blocked.count i + s.sleeping.count i

/-- Number of Terminated records in the task array. -/
def termCount (s : SchedState) : Nat :=
  (s.tasks.filter (fun t => t.state == TASK_TERMINATED)).length

/-- Inductive invariant of the reachable scheduler states: the queues stay
empty, no current task exists, the running flag stays clear, every record
is zero-state or Terminated, and `task_count` is the `uint32_t`
wrap-around of `0 - termCount`. -/
def SchedInv (s : SchedState) : Prop :=
  s.ready = [] ∧ s.blocked = [] ∧ s.sleeping = [] ∧ s.current = none ∧
  s.running = false ∧ s.tasks.length = MAX_TASKS ∧
  (∀ t ∈ s.tasks, t.state = TASK_RUNNING ∨ t.state = TASK_TERMINATED) ∧
  s.task_count = (U32 - termCount s) % U32

end Sched

namespace Ipc

/-- `ipc_message_t` from src/fusion_os/gecko/ipc.h.  `addr` is the page
address the message occupies (the pointer `pmm_alloc_page` returned);
`message_data` holds the copied payload bytes.  The `sender`, `receiver`
and `timestamp` fields are set by the code but referenced by no claim
and are omitted.  (For a 1024-byte payload the C code also writes a
terminating `NUL` one byte past `message_data`, clobbering the first
byte of `message_length` — which the very next statement overwrites
with the length, so the stored record is as modelled.) -/
structure IpcMessage where
  addr : Nat
  message_data : List Nat
  message_length : Nat
  message_type : Nat
  message_flags : Nat
deriving DecidableEq

/-- `message_queue_t` from src/fusion_os/gecko/ipc.h: the intrusive
`message_list` (head first) and the `max_messages`/`current_messages`
counters. -/
structure MessageQueue where
  messages : List IpcMessage
  max_messages : Nat
  current_messages : Nat
deriving DecidableEq

/-- `create_message` from src/fusion_os/gecko/ipc.c: reject a payload
longer than the 1024-byte buffer, allocate one PFA page for the message,
and copy `length` bytes of the payload into it. -/
def create_message (pmm : Pmm.PmmState) (data : List Nat) (length mtype flags : Nat) :
    Pmm.PmmState × Option IpcMessage :=
  if length > 1024 then (pmm, none)
  else
    let r := Pmm.pmm_alloc_page pmm
    match r.2 with
    | none => (r.1, none)
    | some a =>
      (r.1, some { addr := a, message_data := data.take length
                   message_length := length, message_type := mtype
                   message_flags := flags })

/-- `ipc_send_message` from src/fusion_os/gecko/ipc.c, for a non-`NULL`
destination queue (the `destination == NULL` branch runs the identical
logic against the system queue).  `message = none` models a `NULL`
payload pointer.  Validation failure, allocation failure and a full
queue all return `-1`; on a full queue the freshly allocated message
page is abandoned without being freed. -/
def ipc_send_message (pmm : Pmm.PmmState) (q : MessageQueue)
    (message : Option (List Nat)) (length mtype flags : Nat) :
    Pmm.PmmState × MessageQueue × Int :=
  match message with
  | none => (pmm, q, -1)
  | some data =>
    if length == 0 || length > 1024 then (pmm, q, -1)
    else
      match create_message pmm data length mtype flags with
      | (pmm1, none) => (pmm1, q, -1)
      | (pmm1, some m) =>
        if q.current_messages < q.max_messages then
          (pmm1,
            { q with messages := q.messages ++ [m]
                     current_messages := (q.current_messages + 1) % U32 }, 0)
        else (pmm1, q, -1)

/-- `ipc_receive_message` from src/fusion_os/gecko/ipc.c.  The busy-wait
loop only counts `wait_time` up to `timeout_ms` and cannot change the
queue, so an empty queue returns `-1` for every timeout.  Otherwise the
head message is unlinked and `current_messages` decremented first; only
then is the caller's buffer length checked, and a too-small buffer
returns `-1` without delivering, re-queueing or freeing the message.  On
success the copied data, length and type are returned and the message
page is freed back to the PFA. -/
def ipc_receive_message (pmm : Pmm.PmmState) (q : MessageQueue)
    (buffer_len : Nat) (timeout_ms : Nat) :
    Pmm.PmmState × MessageQueue × Int × Option (List Nat × Nat × Nat) :=
  match q.messages with
  | [] => (pmm, q, -1, none)
  | m :: rest =>
    let q1 := { q with messages := rest
                       current_messages := (q.current_messages + U32 - 1) % U32 }
    if buffer_len < m.message_length then (pmm, q1, -1, none)
    else
      (Pmm.pmm_free_page pmm m.addr, q1, 0,
        some (m.message_data, m.message_length, m.message_type))

end Ipc

/-! Concrete states and inputs used to settle the claims. -/

/-- A single 64 MiB Available region at 1 MiB, as a BIOS memory map. -/
def c1_map : List Pmm.MemoryMapEntry := [⟨0x100000, 67108864, 0⟩]

/-- The PFA state after `pmm_init` and `pmm_set_memory_map(c1_map)` from
boot. -/
def c1_state : Pmm.PmmState := Pmm.pmm_set_memory_map (Pmm.pmm_init Pmm.pmmBoot) c1_map

/-- A PFA state holding two free order-0 buddy blocks `0x2000` and `0x3000`
(each with order header 0; all other raw memory carries the header value
999), with consistent counters. -/
def c3_state : Pmm.PmmState :=
  { inited := true
    free_lists := fun k => if k = 0 then [0x2000, 0x3000] else []
    memory_start := 0
    memory_end := 0x100000
    total_pages := 100
    free_pages := 2
    reserved_pages := 0
    orderField := fun a => if a = 0x2000 then 0 else if a = 0x3000 then 0 else 999
    regions := [] }

/-- A scheduler state whose slot 0 is Terminated (free) while the table
counter is 0, with `next_task_id` at 5: the situation in which
`scheduler_create_task` proceeds to the kernel-stack allocation. -/
def c5_state : Sched.SchedState :=
  { Sched.schedInit with
    tasks := (List.replicate Sched.MAX_TASKS Sched.zeroTask).set 0
      { Sched.zeroTask with state := Sched.TASK_TERMINATED }
    next_task_id := 5 }

/-- A PFA state with total memory of exactly two frames (8192 bytes), one
of them free on the order-0 list: a request of one frame (order 0) or of
4096 bytes is exactly half of total memory. -/
def c6_state : Pmm.PmmState :=
  { inited := true
    free_lists := fun k => if k = 0 then [0x2000] else []
    memory_start := 0
    memory_end := 0x4000
    total_pages := 2
    free_pages := 1
    reserved_pages := 0
    orderField := fun a => if a = 0x2000 then 0 else 999
    regions := [] }

/-- All-zero physical memory: no page-table entry is present anywhere. -/
def c7_mem0 : Pt.Mem := fun _ => 0

/-- Root PML4 page of the C7 run. -/
def c7_root : Nat := 0x4000

/-- Fresh table pages the PFA hands to `map_virtual_address` in the C7
run. -/
def c7_allocs : List Nat := [0x1000, 0x2000, 0x3000]

/-- Result of `map_virtual_address(c7_root, 0, 0x5000, PTE_P|PTE_W)` on
all-zero memory. -/
def c7_mapped : Pt.Mem × List Nat × Int :=
  Pt.map_virtual_address c7_mem0 c7_allocs c7_root 0 0x5000 3

/-- Memory after the subsequent `unmap_virtual_address(c7_root, 0)`. -/
def c7_unmapped : Pt.Mem := Pt.unmap_virtual_address c7_mapped.1 c7_root 0

/-- A PFA state with one free page at `0x7000`, enough for one IPC message
allocation. -/
def c8_pmm : Pmm.PmmState :=
  { inited := true
    free_lists := fun k => if k = 0 then [0x7000] else []
    memory_start := 0
    memory_end := 0x100000
    total_pages := 100
    free_pages := 1
    reserved_pages := 0
    orderField := fun a => if a = 0x7000 then 0 else 999
    regions := [] }

/-- An empty destination queue with the default capacity of 64. -/
def c8_queue : Ipc.MessageQueue := { messages := [], max_messages := 64, current_messages := 0 }

/-- The boot-reachable PFA state right after `pmm_init`: total memory 0 and
every free list empty (`pmm_set_memory_map` never seeds them). -/
def c8_boot_pmm : Pmm.PmmState := Pmm.pmm_init Pmm.pmmBoot

/-- A five-byte message sitting on a queue, for the receive runs. -/
def c9_msg : Ipc.IpcMessage :=
  { addr := 0x9000, message_data := [1, 2, 3, 4, 5], message_length := 5
    message_type := 1, message_flags := 2 }

/-- A queue holding `c9_msg`. -/
def c9_queue : Ipc.MessageQueue :=
  { messages := [c9_msg], max_messages := 64, current_messages := 1 }

/-- A full queue: one message enqueued, capacity 1. -/
def c9_full_queue : Ipc.MessageQueue :=
  { messages := [c9_msg], max_messages := 1, current_messages := 1 }

/-- A second message behind the head, for the C10 runs. -/
def c10_msg2 : Ipc.IpcMessage :=
  { addr := 0xa000, message_data := [7, 8], message_length := 2
    message_type := 3, message_flags := 2 }

/-- A queue holding the five-byte head message and a two-byte successor. -/
def c10_queue : Ipc.MessageQueue :=
  { messages := [c9_msg, c10_msg2], max_messages := 64, current_messages := 2 }

/-! Scheduler lemmas. -/

namespace Sched

theorem scanIdx_eq_none (p : TaskRec → Bool) (l : List TaskRec) :
    scanIdx p l = none ↔ ∀ t ∈ l, p t = false := by
  induction l with
  | nil => simp [scanIdx]
  | cons a l ih =>
    cases h : p a with
    | true => simp [scanIdx, h]
    | false => simp [scanIdx, h, ih]

theorem scanIdx_some (p : TaskRec → Bool) (l : List TaskRec) (i : Nat)
    (h : scanIdx p l = some i) :
    i < l.length ∧ p (l.getD i zeroTask) = true := by
  induction l generalizing i with
  | nil => simp [scanIdx] at h
  | cons a l ih =>
    cases hp : p a with
    | true =>
      simp [scanIdx, hp] at h
      subst h
      simp [hp]
    | false =>
      simp [scanIdx, hp] at h
      obtain ⟨j, hj, rfl⟩ := h
      obtain ⟨h1, h2⟩ := ih j hj
      refine ⟨by simp only [List.length_cons]; omega, ?_⟩
      simpa using h2

theorem length_filter_set_succ (p : TaskRec → Bool) (l : List TaskRec) (i : Nat)
    (t : TaskRec) (hi : i < l.length) (hold : p (l.getD i zeroTask) = false)
    (hnew : p t = true) :
    ((l.set i t).filter p).length = (l.filter p).length + 1 := by
  induction l generalizing i with
  | nil => simp at hi
  | cons a l ih =>
    cases i with
    | zero =>
      simp only [List.getD_cons_zero] at hold
      simp [List.filter_cons, hold, hnew]
    | succ j =>
      simp only [List.getD_cons_succ] at hold
      have hj : j < l.length := by simpa using hi
      have := ih j hj hold
      simp only [List.set_cons_succ, List.filter_cons]
      cases hpa : p a <;> simp [this]

set_option maxRecDepth 8192 in
theorem inv_init : SchedInv schedInit := by
  unfold SchedInv
  decide

theorem create_task_fails_of_inv (s : SchedState) (hInv : SchedInv s)
    (fn : Nat) (name : String) (priority : Nat) (stackAlloc : Option Nat) :
    scheduler_create_task s fn name priority stackAlloc = (s, -1) := by
  obtain ⟨-, -, -, -, -, hlen, hstates, hcount⟩ := hInv
  by_cases hT : termCount s = 0
  · have hc0 : s.task_count = 0 := by rw [hcount, hT]; decide
    have hscan : scanIdx (fun t => t.state == TASK_TERMINATED) s.tasks = none := by
      rw [scanIdx_eq_none]
      intro t ht
      rcases hstates t ht with h0 | h4
      · simp [h0, TASK_RUNNING, TASK_TERMINATED]
      · exfalso
        have hnil : s.tasks.filter (fun t => t.state == TASK_TERMINATED) = [] :=
          List.length_eq_zero.mp hT
        have := List.filter_eq_nil_iff.mp hnil t ht
        simp [h4, TASK_TERMINATED] at this
    simp [scheduler_create_task, hscan, hc0, MAX_TASKS]
  · have hT1 : 1 ≤ termCount s := Nat.one_le_iff_ne_zero.mpr hT
    have hTle : termCount s ≤ 256 := by
      have h1 := List.length_filter_le (fun t => t.state == TASK_TERMINATED) s.tasks
      have h2 : s.tasks.length = 256 := hlen
      unfold termCount
      omega
    have hge : MAX_TASKS ≤ s.task_count := by
      rw [hcount]
      simp only [U32, MAX_TASKS]
      omega
    unfold scheduler_create_task
    rw [if_pos hge]

theorem create_thread_fails_of_inv (s : SchedState) (hInv : SchedInv s)
    (stack stack_size fn : Nat) :
    scheduler_create_thread s stack stack_size fn = (s, -1) := by
  obtain ⟨-, -, -, -, -, hlen, hstates, hcount⟩ := hInv
  by_cases hT : termCount s = 0
  · have hc0 : s.task_count = 0 := by rw [hcount, hT]; decide
    have hscan : scanIdx (fun t => t.state == TASK_TERMINATED) s.tasks = none := by
      rw [scanIdx_eq_none]
      intro t ht
      rcases hstates t ht with h0 | h4
      · simp [h0, TASK_RUNNING, TASK_TERMINATED]
      · exfalso
        have hnil : s.tasks.filter (fun t => t.state == TASK_TERMINATED) = [] :=
          List.length_eq_zero.mp hT
        have := List.filter_eq_nil_iff.mp hnil t ht
        simp [h4, TASK_TERMINATED] at this
    simp [scheduler_create_thread, hscan, hc0, MAX_TASKS]
  · have hT1 : 1 ≤ termCount s := Nat.one_le_iff_ne_zero.mpr hT
    have hTle : termCount s ≤ 256 := by
      have h1 := List.length_filter_le (fun t => t.state == TASK_TERMINATED) s.tasks
      have h2 : s.tasks.length = 256 := hlen
      unfold termCount
      omega
    have hge : MAX_TASKS ≤ s.task_count := by
      rw [hcount]
      simp only [U32, MAX_TASKS]
      omega
    unfold scheduler_create_thread
    rw [if_pos hge]

theorem start_fails_of_inv (s : SchedState) (hInv : SchedInv s)
    (stackAlloc : Option Nat) :
    scheduler_start s stackAlloc = (s, -1) := by
  have hrun : s.running = false := hInv.2.2.2.2.1
  have hc := create_task_fails_of_inv s hInv 0 "idle" 0 stackAlloc
  simp [scheduler_start, hrun, hc]

theorem yield_noop_of_inv (s : SchedState) (hInv : SchedInv s) :
    scheduler_yield s = s := by
  have hrun : s.running = false := hInv.2.2.2.2.1
  simp [scheduler_yield, hrun]

theorem schedule_noop_of_inv (s : SchedState) (hInv : SchedInv s) :
    scheduler_schedule s = s := by
  have hrun : s.running = false := hInv.2.2.2.2.1
  simp [scheduler_schedule, hrun]

theorem block_noop_of_inv (s : SchedState) (hInv : SchedInv s) (reason : Nat) :
    scheduler_block_task s reason = s := by
  have hcur : s.current = none := hInv.2.2.2.1
  simp [scheduler_block_task, hcur]

theorem unblock_noop_of_inv (s : SchedState) (hInv : SchedInv s) (task_id : Nat) :
    scheduler_unblock_task s task_id = s := by
  obtain ⟨-, -, -, -, -, hlen, hstates, -⟩ := hInv
  unfold scheduler_unblock_task
  cases hf : find_task_by_id s task_id with
  | none => rfl
  | some i =>
    obtain ⟨hlt, -⟩ := scanIdx_some _ _ _ hf
    have hmem : s.tasks.getD i zeroTask ∈ s.tasks := by
      rw [List.getD_eq_getElem s.tasks zeroTask hlt]
      exact List.getElem_mem hlt
    have hstate : (taskAt s i).state ≠ TASK_BLOCKED := by
      rcases hstates _ hmem with h0 | h4
      · unfold taskAt
        rw [h0]
        decide
      · unfold taskAt
        rw [h4]
        decide
    have hcond : (!((taskAt s i).state == TASK_BLOCKED)) = true := by
      cases hx : (taskAt s i).state == TASK_BLOCKED
      · rfl
      · exact absurd (by simpa using hx) hstate
    simp [hcond]

theorem terminate_preserves_inv (s : SchedState) (hInv : SchedInv s) (task_id : Nat) :
    SchedInv (scheduler_terminate_task s task_id).1 := by
  obtain ⟨hr, hb, hsl, hcur, hrun, hlen, hstates, hcount⟩ := hInv
  cases hf : find_task_by_id s task_id with
  | none =>
    simp only [scheduler_terminate_task, hf]
    exact ⟨hr, hb, hsl, hcur, hrun, hlen, hstates, hcount⟩
  | some i =>
    obtain ⟨hlt, hp⟩ := scanIdx_some _ _ _ hf
    have hpold : ((s.tasks.getD i zeroTask).state == TASK_TERMINATED) = false := by
      rw [Bool.and_eq_true, Bool.not_eq_eq_eq_not, Bool.not_true] at hp
      exact hp.2
    have hTle : (s.tasks.filter (fun t => t.state == TASK_TERMINATED)).length ≤ 256 := by
      have h1 := List.length_filter_le (fun t => t.state == TASK_TERMINATED) s.tasks
      have h2 : s.tasks.length = 256 := hlen
      omega
    have hfilter := length_filter_set_succ (fun t => t.state == TASK_TERMINATED)
      s.tasks i { taskAt s i with state := TASK_TERMINATED } hlt hpold (by simp)
    simp only [scheduler_terminate_task, hf]
    refine ⟨by simp [hr, listRemove], by simp [hb, listRemove], by simp [hsl, listRemove],
      hcur, hrun, by simp [hlen], ?_, ?_⟩
    · intro t ht
      rcases List.mem_or_eq_of_mem_set ht with hmem | heq
      · exact hstates t hmem
      · right
        rw [heq]
    · show (s.task_count + U32 - 1) % U32 =
        (U32 - termCount { s with
          tasks := s.tasks.set i { taskAt s i with state := TASK_TERMINATED }
          ready := listRemove s.ready i
          blocked := listRemove s.blocked i
          sleeping := listRemove s.sleeping i
          task_count := (s.task_count + U32 - 1) % U32 }) % U32
      unfold termCount at hcount ⊢
      simp only at hfilter ⊢
      rw [hfilter, hcount]
      simp only [U32]
      omega

theorem reachable_inv (s : SchedState) (h : SchedReachable s) : SchedInv s := by
  induction h with
  | init => exact inv_init
  | @step s0 s1 hr hstep ih =>
    cases hstep with
    | create fn name priority stackAlloc =>
      rw [create_task_fails_of_inv s0 ih fn name priority stackAlloc]
      exact ih
    | createThread stack stack_size fn =>
      rw [create_thread_fails_of_inv s0 ih stack stack_size fn]
      exact ih
    | start stackAlloc =>
      rw [start_fails_of_inv s0 ih stackAlloc]
      exact ih
    | yield =>
      rw [yield_noop_of_inv s0 ih]
      exact ih
    | schedule =>
      rw [schedule_noop_of_inv s0 ih]
      exact ih
    | block reason =>
      rw [block_noop_of_inv s0 ih reason]
      exact ih
    | unblock task_id =>
      rw [unblock_noop_of_inv s0 ih task_id]
      exact ih
    | terminate task_id =>
      exact terminate_preserves_inv s0 ih task_id

end Sched

/-- Claim C2: on a freshly initialized scheduler (state `schedInit`, before
any task has been terminated), every `scheduler_create_task` and
`scheduler_create_thread` call returns `-1` and leaves the scheduler state
unchanged — the free-slot search accepts only `TASK_TERMINATED` slots but
every zero-initialized slot has state `TASK_RUNNING` — and consequently
`scheduler_start` fails with `-1` because the idle task cannot be
created. -/
theorem C2_fresh_scheduler_create_always_fails
    (fn : Nat) (name : String) (priority : Nat) (stackAlloc : Option Nat)
    (stack stack_size fn2 : Nat) (stackAlloc2 : Option Nat) :
    Sched.scheduler_create_task Sched.schedInit fn name priority stackAlloc =
      (Sched.schedInit, -1) ∧
    Sched.scheduler_create_thread Sched.schedInit stack stack_size fn2 =
      (Sched.schedInit, -1) ∧
    Sched.scheduler_start Sched.schedInit stackAlloc2 = (Sched.schedInit, -1) :=
  ⟨Sched.create_task_fails_of_inv _ Sched.inv_init fn name priority stackAlloc,
   Sched.create_thread_fails_of_inv _ Sched.inv_init stack stack_size fn2,
   Sched.start_fails_of_inv _ Sched.inv_init stackAlloc2⟩

/-- Claim C4: in every scheduler state reachable by any sequence of the
operations create, start, yield, schedule, block, unblock and terminate,
every task index is linked into at most one of the ready/blocked/sleeping
queues, and a task whose state is `TASK_RUNNING` is linked into none of
them. -/
theorem C4_queue_membership_invariant (s : Sched.SchedState)
    (h : Sched.SchedReachable s) :
    (∀ i, Sched.queueCount s i ≤ 1) ∧
    (∀ i, (Sched.taskAt s i).state = Sched.TASK_RUNNING → Sched.queueCount s i = 0) := by
  obtain ⟨hr, hb, hsl, -⟩ := Sched.reachable_inv s h
  constructor
  · intro i
    simp [Sched.queueCount, hr, hb, hsl]
  · intro i _
    simp [Sched.queueCount, hr, hb, hsl]

/-- Witness for C4: the invariant instantiated at the initial state, which
is reachable by the empty operation sequence. -/
theorem C4_queue_membership_invariant_witness :
    Sched.queueCount Sched.schedInit 0 ≤ 1 ∧ Sched.queueCount Sched.schedInit 0 = 0 :=
  ⟨(C4_queue_membership_invariant Sched.schedInit Sched.SchedReachable.init).1 0,
   (C4_queue_membership_invariant Sched.schedInit Sched.SchedReachable.init).2 0 (by decide)⟩

set_option maxRecDepth 8192 in
/-- Claim C1 (code bug): `pmm_set_memory_map` on a map holding a 64 MiB
Available region counts 16384 total and free frames but seeds no free
list, so a subsequent `pmm_alloc_pages` fails with out-of-memory (returns
`NULL`) at every order 0..MAX_ORDER — contradicting the specified seeding
of the free lists.  In fact the free lists stay empty after
`pmm_set_memory_map` of any map. -/
theorem C1_free_lists_never_seeded :
    c1_state.total_pages = 16384 ∧ c1_state.free_pages = 16384 ∧
    ((List.range 21).all fun k => (Pmm.pmm_alloc_pages c1_state k).2 == none) = true ∧
    ∀ (map : List Pmm.MemoryMapEntry) (k : Nat),
      (Pmm.pmm_set_memory_map (Pmm.pmm_init Pmm.pmmBoot) map).free_lists k = [] :=
  ⟨by decide, by decide, by decide, fun _ _ => rfl⟩

set_option maxRecDepth 8192 in
/-- Claim C3 (code bug): in the PFA state `c3_state` (two free order-0
buddies, `free_pages = 2`), `pmm_alloc_pages 0` succeeds returning block
`0x2000` and leaves `free_pages = 1`, but freeing that block with the
same order coalesces it with its still-free buddy and then increments
`free_pages` by `2 ^ 1`, yielding `free_pages = 3`: the round trip does
not restore the statistics. -/
theorem C3_free_alloc_roundtrip_breaks_stats :
    (Pmm.pmm_alloc_pages c3_state 0).2 = some 0x2000 ∧
    (Pmm.pmm_alloc_pages c3_state 0).1.free_pages = 1 ∧
    (Pmm.pmm_alloc_pages c3_state 0).1.total_pages = c3_state.total_pages ∧
    (Pmm.pmm_free_pages (Pmm.pmm_alloc_pages c3_state 0).1 0x2000 0).free_pages = 3 ∧
    c3_state.free_pages = 2 ∧
    (Pmm.pmm_free_pages (Pmm.pmm_alloc_pages c3_state 0).1 0x2000 0).free_pages ≠
      c3_state.free_pages := by
  refine ⟨by decide, by decide, by decide, by decide, by decide, by decide⟩

/-- Counterexample to claim C5: from the state `c5_state` (slot 0 free,
`next_task_id = 5`), `scheduler_create_task` with a failing kernel-stack
allocation returns `-1` but the task table is changed: slot 0 now holds
an initialized record in state `TASK_READY` and `next_task_id` was
incremented. -/
theorem C5_counterexample :
    (Sched.scheduler_create_task c5_state 7 "worker" 1 none).2 = -1 ∧
    (Sched.scheduler_create_task c5_state 7 "worker" 1 none).1 ≠ c5_state ∧
    (Sched.scheduler_create_task c5_state 7 "worker" 1 none).1.tasks ≠ c5_state.tasks ∧
    (Sched.taskAt (Sched.scheduler_create_task c5_state 7 "worker" 1 none).1 0).state =
      Sched.TASK_READY ∧
    (Sched.scheduler_create_task c5_state 7 "worker" 1 none).1.next_task_id = 6 := by
  refine ⟨by decide, by decide, by decide, by decide, by decide⟩

/-- Claim C5 as amended: when the kernel-stack allocation fails,
`scheduler_create_task` returns `-1` without linking the task into the
ready queue or changing `task_count`, but the chosen slot is left
initialized in state `TASK_READY` (consuming it) and `next_task_id` is
incremented. -/
theorem C5_create_failure_leaves_slot_initialized (s : Sched.SchedState)
    (fn : Nat) (name : String) (priority : Nat) (i : Nat)
    (hcnt : s.task_count < Sched.MAX_TASKS)
    (hslot : Sched.scanIdx (fun t => t.state == Sched.TASK_TERMINATED) s.tasks = some i) :
    (Sched.scheduler_create_task s fn name priority none).2 = -1 ∧
    (Sched.scheduler_create_task s fn name priority none).1 =
      { s with
        tasks := s.tasks.set i
          { task_id := s.next_task_id, task_name := name.take 31
            state := Sched.TASK_READY, priority := priority, policy := Sched.SCHED_RR
            time_slice := Sched.DEFAULT_TIME_SLICE
            time_remaining := Sched.DEFAULT_TIME_SLICE
            kernel_stack := none, stack_size := 8192
            creation_time := s.uptime, last_scheduled := 0, total_cpu_time := 0
            task_function := fn }
        next_task_id := (s.next_task_id + 1) % U32 } := by
  have hnot : ¬ Sched.MAX_TASKS ≤ s.task_count := by omega
  constructor
  · simp [Sched.scheduler_create_task, hnot, hslot]
  · simp [Sched.scheduler_create_task, hnot, hslot]

/-- Witness for the amended C5 theorem, applied at `c5_state`. -/
theorem C5_create_failure_witness :
    (Sched.scheduler_create_task c5_state 7 "worker" 1 none).2 = -1 ∧
    (Sched.scheduler_create_task c5_state 7 "worker" 1 none).1 =
      { c5_state with
        tasks := c5_state.tasks.set 0
          { task_id := c5_state.next_task_id, task_name := "worker".take 31
            state := Sched.TASK_READY, priority := 1, policy := Sched.SCHED_RR
            time_slice := Sched.DEFAULT_TIME_SLICE
            time_remaining := Sched.DEFAULT_TIME_SLICE
            kernel_stack := none, stack_size := 8192
            creation_time := c5_state.uptime, last_scheduled := 0, total_cpu_time := 0
            task_function := 7 }
        next_task_id := (c5_state.next_task_id + 1) % U32 } := by
  exact C5_create_failure_leaves_slot_initialized c5_state 7 "worker" 1 0
    (by decide) (by decide)

/-- Counterexample to claim C6: in `c6_state` total memory is two frames, a
request of one frame (order 0) is exactly half of it, yet
`pmm_alloc_pages` succeeds (the admission check uses a strict
comparison), and `vmm_can_allocate_memory` of half the total bytes (4096
of 8192) returns `true`, not `false`. -/
theorem C6_counterexample :
    Pmm.pages_from_order 0 = c6_state.total_pages / 2 ∧
    (Pmm.pmm_alloc_pages c6_state 0).2 = some 0x2000 ∧
    4096 = Pmm.pmm_get_total_memory c6_state / 2 ∧
    Vmm.vmm_can_allocate_memory c6_state 4096 = true := by
  refine ⟨by decide, by decide, by decide, by decide⟩

/-- Claim C6 as amended: the admission checks reject only requests strictly
greater than half of total memory; a request of exactly half passes the
50% check.  Concretely: (1) any order with `2 ^ order > total_pages / 2`
makes `pmm_alloc_pages` return `NULL`; (2) any size strictly above half
the total bytes makes `vmm_can_allocate_memory` return `false`; (3) an
order with `2 ^ order = total_pages / 2` within the 100 MiB cap passes
`validate_allocation`; (4) a size of exactly half the total bytes, within
the free memory and the 100 MiB cap, makes `vmm_can_allocate_memory`
return `true`. -/
theorem C6_half_memory_admission :
    (∀ (s : Pmm.PmmState) (order : Nat),
      Pmm.pages_from_order order > s.total_pages / 2 →
      (Pmm.pmm_alloc_pages s order).2 = none) ∧
    (∀ (s : Pmm.PmmState) (size : Nat),
      size > Pmm.pmm_get_total_memory s / 2 →
      Vmm.vmm_can_allocate_memory s size = false) ∧
    (∀ (s : Pmm.PmmState) (order : Nat),
      s.inited = true →
      Pmm.pages_from_order order = s.total_pages / 2 →
      Pmm.pages_from_order order ≤ 25600 →
      Pmm.validate_allocation s order = true) ∧
    (∀ (s : Pmm.PmmState) (size : Nat),
      size = Pmm.pmm_get_total_memory s / 2 →
      size ≤ Pmm.pmm_get_free_memory s →
      size ≤ 104857600 →
      Vmm.vmm_can_allocate_memory s size = true) := by
  refine ⟨?_, ?_, ?_, ?_⟩
  · intro s order hgt
    have hval : Pmm.validate_allocation s order = false := by
      unfold Pmm.validate_allocation
      dsimp only
      split_ifs with h1 <;> rfl
    unfold Pmm.pmm_alloc_pages
    split
    · rfl
    · simp [hval]
  · intro s size hgt
    unfold Vmm.vmm_can_allocate_memory Vmm.validate_allocation
    dsimp only
    split_ifs with h1 <;> rfl
  · intro s order hinit heq hcap
    have hgb : Pmm.pages_from_order order * Pmm.PAGE_SIZE % U32 / (1024 * 1024 * 1024) = 0 := by
      have h4 : Pmm.pages_from_order order * Pmm.PAGE_SIZE ≤ 25600 * 4096 := by
        unfold Pmm.PAGE_SIZE
        exact Nat.mul_le_mul_right 4096 hcap
      have h6 : Pmm.pages_from_order order * Pmm.PAGE_SIZE % U32 ≤
          Pmm.pages_from_order order * Pmm.PAGE_SIZE := Nat.mod_le _ _
      apply Nat.div_eq_of_lt
      omega
    unfold Pmm.validate_allocation
    dsimp only
    split_ifs with h1 h2 h3
    · exact absurd h1 (by simp [hgb])
    · exact absurd h2 (by omega)
    · exact absurd h3 (by simp only [Pmm.PAGE_SIZE]; omega)
    · rfl
  · intro s size heq hfree hcap
    unfold Vmm.vmm_can_allocate_memory Vmm.validate_allocation
    dsimp only
    split_ifs with h1 h2 h3
    · exact absurd h1 (by omega)
    · exact absurd h2 (by omega)
    · exact absurd h3 (by omega)
    · rfl

theorem walk_write_other (m : Pt.Mem) (root v ea x : Nat)
    (hw : Pt.walk_page_table m root v = some ea)
    (h4 : ea ≠ Pt.walkE4 root v)
    (h3 : ea ≠ Pt.walkE3 m root v)
    (h2 : ea ≠ Pt.walkE2 m root v) :
    Pt.walk_page_table (Pt.writeE m ea x) root v = some ea := by
  unfold Pt.walkE4 at h4
  unfold Pt.walkE3 Pt.walkE4 at h3
  unfold Pt.walkE2 Pt.walkE3 Pt.walkE4 at h2
  have hr4 : Pt.writeE m ea x (root + 8 * Pt.PML4_INDEX v) =
      m (root + 8 * Pt.PML4_INDEX v) := by
    unfold Pt.writeE
    exact if_neg (Ne.symm h4)
  have hr3 : Pt.writeE m ea x
      (Pt.pte_physical_address (m (root + 8 * Pt.PML4_INDEX v)) + 8 * Pt.PDPT_INDEX v) =
      m (Pt.pte_physical_address (m (root + 8 * Pt.PML4_INDEX v)) + 8 * Pt.PDPT_INDEX v) := by
    unfold Pt.writeE
    exact if_neg (Ne.symm h3)
  have hr2 : Pt.writeE m ea x
      (Pt.pte_physical_address
        (m (Pt.pte_physical_address (m (root + 8 * Pt.PML4_INDEX v)) + 8 * Pt.PDPT_INDEX v)) +
        8 * Pt.PD_INDEX v) =
      m (Pt.pte_physical_address
        (m (Pt.pte_physical_address (m (root + 8 * Pt.PML4_INDEX v)) + 8 * Pt.PDPT_INDEX v)) +
        8 * Pt.PD_INDEX v) := by
    unfold Pt.writeE
    exact if_neg (Ne.symm h2)
  unfold Pt.walk_page_table at hw ⊢
  dsimp only at hw ⊢
  rw [hr4, hr3, hr2]
  exact hw

/-- Counterexample to claim C7: on all-zero memory with root `0x4000`, the
walk at virtual address 0 returns not-mapped; `map_virtual_address`
succeeds (building the interior chain from fresh pages `0x1000, 0x2000,
0x3000`); after `unmap_virtual_address` the walk returns the leaf-entry
address `0x3000` — not the pre-call not-mapped result the claim
requires. -/
theorem C7_counterexample :
    Pt.walk_page_table c7_mem0 c7_root 0 = none ∧
    c7_mapped.2.2 = 0 ∧
    Pt.walk_page_table c7_unmapped c7_root 0 = some 0x3000 ∧
    Pt.walk_page_table c7_unmapped c7_root 0 ≠ Pt.walk_page_table c7_mem0 c7_root 0 := by
  refine ⟨by decide, by decide, by decide, by decide⟩

/-- Claim C7 as amended: after a successful `map_virtual_address` whose walk
finds the leaf entry at `ea` (an address distinct from the three interior
entries of the walk), `unmap_virtual_address` clears that leaf entry, so
the leaf is non-present and `get_physical_address` (the translation)
returns not-mapped again; the walk itself, however, still returns the
leaf-entry address `ea` rather than its pre-map result. -/
theorem C7_unmap_restores_translation (m : Pt.Mem) (allocs : List Nat)
    (root v p f ea : Nat)
    (hmap : (Pt.map_virtual_address m allocs root v p f).2.2 = 0)
    (hwalk : Pt.walk_page_table (Pt.map_virtual_address m allocs root v p f).1 root v =
      some ea)
    (h4 : ea ≠ Pt.walkE4 root v)
    (h3 : ea ≠ Pt.walkE3 (Pt.map_virtual_address m allocs root v p f).1 root v)
    (h2 : ea ≠ Pt.walkE2 (Pt.map_virtual_address m allocs root v p f).1 root v) :
    Pt.pte_present
      (Pt.unmap_virtual_address (Pt.map_virtual_address m allocs root v p f).1 root v ea) =
      false ∧
    Pt.walk_page_table
      (Pt.unmap_virtual_address (Pt.map_virtual_address m allocs root v p f).1 root v)
      root v = some ea ∧
    Pt.get_physical_address
      (Pt.unmap_virtual_address (Pt.map_virtual_address m allocs root v p f).1 root v)
      root v = none := by
  have hunmap : Pt.unmap_virtual_address (Pt.map_virtual_address m allocs root v p f).1 root v =
      Pt.writeE (Pt.map_virtual_address m allocs root v p f).1 ea 0 := by
    unfold Pt.unmap_virtual_address
    rw [hwalk]
  have hzero : Pt.writeE (Pt.map_virtual_address m allocs root v p f).1 ea 0 ea = 0 := by
    unfold Pt.writeE
    exact if_pos rfl
  have hwalk2 : Pt.walk_page_table
      (Pt.writeE (Pt.map_virtual_address m allocs root v p f).1 ea 0) root v = some ea :=
    walk_write_other _ root v ea 0 hwalk h4 h3 h2
  refine ⟨?_, ?_, ?_⟩
  · rw [hunmap, hzero]
    rfl
  · rw [hunmap]
    exact hwalk2
  · rw [hunmap]
    unfold Pt.get_physical_address
    rw [hwalk2]
    dsimp only
    rw [hzero]
    rfl

/-- Witness for the amended C7 theorem, applied to the concrete run of the
counterexample (leaf entry at `0x3000`). -/
theorem C7_unmap_restores_translation_witness :
    Pt.pte_present
      (Pt.unmap_virtual_address (Pt.map_virtual_address c7_mem0 c7_allocs c7_root 0 0x5000 3).1
        c7_root 0 0x3000) = false ∧
    Pt.walk_page_table
      (Pt.unmap_virtual_address (Pt.map_virtual_address c7_mem0 c7_allocs c7_root 0 0x5000 3).1
        c7_root 0) c7_root 0 = some 0x3000 ∧
    Pt.get_physical_address
      (Pt.unmap_virtual_address (Pt.map_virtual_address c7_mem0 c7_allocs c7_root 0 0x5000 3).1
        c7_root 0) c7_root 0 = none :=
  C7_unmap_restores_translation c7_mem0 c7_allocs c7_root 0 0x5000 3 0x3000
    (by decide) (by decide) (by decide) (by decide) (by decide)

/-- Witness for the amended C6 theorem: each conjunct applied at a concrete
state. -/
theorem C6_half_memory_admission_witness :
    (Pmm.pmm_alloc_pages c6_state 1).2 = none ∧
    Vmm.vmm_can_allocate_memory c6_state 4097 = false ∧
    Pmm.validate_allocation c6_state 0 = true ∧
    Vmm.vmm_can_allocate_memory c6_state 4096 = true :=
  ⟨C6_half_memory_admission.1 c6_state 1 (by decide),
   C6_half_memory_admission.2.1 c6_state 4097 (by decide),
   C6_half_memory_admission.2.2.1 c6_state 0 (by decide) (by decide) (by decide),
   C6_half_memory_admission.2.2.2 c6_state 4096 (by decide) (by decide) (by decide)⟩

/-- Counterexample to claim C8: in the boot-reachable PFA state (free lists
never seeded), a send of exactly 1024 bytes to an empty queue with free
capacity fails with `-1` — the message page cannot be allocated — instead
of succeeding as the claim states. -/
theorem C8_counterexample :
    c8_queue.current_messages < c8_queue.max_messages ∧
    (Ipc.ipc_send_message c8_boot_pmm c8_queue (some (List.replicate 1024 65)) 1024 1 2).2.2 =
      -1 := by
  refine ⟨by decide, by decide⟩

/-- Claim C8 as amended: for every destination queue with free capacity and
non-null payload, provided the PFA can supply a page for the message,
`ipc_send_message` with length exactly 1024 succeeds — it returns 0 and
enqueues the message at the tail with the payload copied intact — while a
send with length 1025 always fails with `-1` (the code's single failure
value, standing for TooLarge) and leaves the queue and the allocator
unchanged. -/
theorem C8_send_boundary :
    (∀ (pmm : Pmm.PmmState) (q : Ipc.MessageQueue) (data : List Nat) (mtype flags a : Nat),
      (Pmm.pmm_alloc_page pmm).2 = some a →
      q.current_messages < q.max_messages →
      Ipc.ipc_send_message pmm q (some data) 1024 mtype flags =
        ((Pmm.pmm_alloc_page pmm).1,
          { q with
            messages := q.messages ++
              [{ addr := a, message_data := data.take 1024, message_length := 1024
                 message_type := mtype, message_flags := flags }]
            current_messages := (q.current_messages + 1) % U32 }, 0)) ∧
    (∀ (pmm : Pmm.PmmState) (q : Ipc.MessageQueue) (data : List Nat) (mtype flags : Nat),
      Ipc.ipc_send_message pmm q (some data) 1025 mtype flags = (pmm, q, -1)) := by
  constructor
  · intro pmm q data mtype flags a halloc hcap
    have hcm : Ipc.create_message pmm data 1024 mtype flags =
        ((Pmm.pmm_alloc_page pmm).1,
          some { addr := a, message_data := data.take 1024, message_length := 1024
                 message_type := mtype, message_flags := flags }) := by
      unfold Ipc.create_message
      rw [if_neg (by omega)]
      dsimp only
      rw [halloc]
    unfold Ipc.ipc_send_message
    dsimp only
    rw [if_neg (by decide), hcm]
    dsimp only
    rw [if_pos hcap]
  · intro pmm q data mtype flags
    unfold Ipc.ipc_send_message
    rfl

/-- Witness for the amended C8 theorem: the boundary sends applied at a
seeded PFA state and an empty capacity-64 queue. -/
theorem C8_send_boundary_witness :
    Ipc.ipc_send_message c8_pmm c8_queue (some (List.replicate 1024 65)) 1024 1 2 =
      ((Pmm.pmm_alloc_page c8_pmm).1,
        { c8_queue with
          messages := c8_queue.messages ++
            [{ addr := 0x7000, message_data := (List.replicate 1024 65).take 1024
               message_length := 1024, message_type := 1, message_flags := 2 }]
          current_messages := (c8_queue.current_messages + 1) % U32 }, 0) ∧
    Ipc.ipc_send_message c8_pmm c8_queue (some (List.replicate 1024 65)) 1025 1 2 =
      (c8_pmm, c8_queue, -1) :=
  ⟨C8_send_boundary.1 c8_pmm c8_queue (List.replicate 1024 65) 1 2 0x7000
      (by decide) (by decide),
   C8_send_boundary.2 c8_pmm c8_queue (List.replicate 1024 65) 1 2⟩

/-- Counterexample to claim C9: the four distinct failures — receive by
timeout on an empty queue, receive into a too-small buffer, send to a
full queue, and an oversized send — all return the same value `-1`; they
are not distinguishable from the return value. -/
theorem C9_counterexample :
    (Ipc.ipc_receive_message c8_pmm c8_queue 100 0).2.2.1 = -1 ∧
    (Ipc.ipc_receive_message c8_pmm c9_queue 1 0).2.2.1 = -1 ∧
    (Ipc.ipc_send_message c8_pmm c9_full_queue (some [1]) 1 1 2).2.2 = -1 ∧
    (Ipc.ipc_send_message c8_pmm c8_queue (some (List.replicate 1025 65)) 1025 1 2).2.2 =
      -1 := by
  refine ⟨by decide, by decide, by decide, by decide⟩

/-- Claim C9 as amended: `ipc_receive_message` returns `-1` both on timeout
(empty queue) and on a too-small caller buffer, and `ipc_send_message`
returns `-1` both on a full queue and on an oversized payload: all four
failure kinds share the single return value `-1` and cannot be
distinguished by the caller from the return value alone. -/
theorem C9_uniform_failure_code :
    (∀ (pmm : Pmm.PmmState) (q : Ipc.MessageQueue) (blen t : Nat),
      q.messages = [] → (Ipc.ipc_receive_message pmm q blen t).2.2.1 = -1) ∧
    (∀ (pmm : Pmm.PmmState) (q : Ipc.MessageQueue) (m : Ipc.IpcMessage)
      (rest : List Ipc.IpcMessage) (blen t : Nat),
      q.messages = m :: rest → blen < m.message_length →
      (Ipc.ipc_receive_message pmm q blen t).2.2.1 = -1) ∧
    (∀ (pmm : Pmm.PmmState) (q : Ipc.MessageQueue) (data : List Nat) (len mtype flags : Nat),
      ¬ q.current_messages < q.max_messages →
      (Ipc.ipc_send_message pmm q (some data) len mtype flags).2.2 = -1) ∧
    (∀ (pmm : Pmm.PmmState) (q : Ipc.MessageQueue) (data : List Nat) (len mtype flags : Nat),
      len > 1024 →
      (Ipc.ipc_send_message pmm q (some data) len mtype flags).2.2 = -1) := by
  refine ⟨?_, ?_, ?_, ?_⟩
  · intro pmm q blen t hq
    simp only [Ipc.ipc_receive_message, hq]
  · intro pmm q m rest blen t hq hlen
    simp only [Ipc.ipc_receive_message, hq]
    rw [if_pos hlen]
  · intro pmm q data len mtype flags hfull
    unfold Ipc.ipc_send_message
    dsimp only
    by_cases hv : (len == 0 || decide (len > 1024)) = true
    · rw [if_pos hv]
    · rw [if_neg hv]
      rcases hcm : Ipc.create_message pmm data len mtype flags with ⟨pmm1, r⟩
      cases r with
      | none => rfl
      | some msg =>
        dsimp only
        rw [if_neg hfull]
  · intro pmm q data len mtype flags hlen
    have hv : (len == 0 || decide (len > 1024)) = true := by
      simp [hlen]
    unfold Ipc.ipc_send_message
    simp only [hv]
    rfl

/-- Witness for the amended C9 theorem: the four failure conjuncts applied
at the concrete queues of the counterexample. -/
theorem C9_uniform_failure_code_witness :
    (Ipc.ipc_receive_message c8_pmm c8_queue 100 0).2.2.1 = -1 ∧
    (Ipc.ipc_receive_message c8_pmm c9_queue 1 5).2.2.1 = -1 ∧
    (Ipc.ipc_send_message c8_pmm c9_full_queue (some [1]) 1 1 2).2.2 = -1 ∧
    (Ipc.ipc_send_message c8_pmm c8_queue (some (List.replicate 1025 65)) 1025 1 2).2.2 =
      -1 :=
  ⟨C9_uniform_failure_code.1 c8_pmm c8_queue 100 0 (by decide),
   C9_uniform_failure_code.2.1 c8_pmm c9_queue c9_msg [] 1 5 (by decide) (by decide),
   C9_uniform_failure_code.2.2.1 c8_pmm c9_full_queue [1] 1 1 2 (by decide),
   C9_uniform_failure_code.2.2.2 c8_pmm c8_queue (List.replicate 1025 65) 1025 1 2
     (by decide)⟩

/-- Claim C10: when `ipc_receive_message` finds a head message longer than
the caller's buffer it returns `-1` only after unlinking that message and
decrementing `current_messages`; the message is neither delivered (no
output), re-enqueued, nor freed (the PFA state is untouched), and a
subsequent receive on the same queue with an adequate buffer delivers the
next message. -/
theorem C10_oversized_receive_drops_message (pmm : Pmm.PmmState)
    (q : Ipc.MessageQueue) (m : Ipc.IpcMessage) (rest : List Ipc.IpcMessage)
    (blen t : Nat) (hq : q.messages = m :: rest) (hlen : blen < m.message_length) :
    (Ipc.ipc_receive_message pmm q blen t).2.2.1 = -1 ∧
    (Ipc.ipc_receive_message pmm q blen t).2.2.2 = none ∧
    (Ipc.ipc_receive_message pmm q blen t).1 = pmm ∧
    (Ipc.ipc_receive_message pmm q blen t).2.1.messages = rest ∧
    (Ipc.ipc_receive_message pmm q blen t).2.1.current_messages =
      (q.current_messages + U32 - 1) % U32 ∧
    (∀ (m2 : Ipc.IpcMessage) (rest2 : List Ipc.IpcMessage) (blen2 t2 : Nat),
      rest = m2 :: rest2 → m2.message_length ≤ blen2 →
      (Ipc.ipc_receive_message (Ipc.ipc_receive_message pmm q blen t).1
        (Ipc.ipc_receive_message pmm q blen t).2.1 blen2 t2).2.2.1 = 0 ∧
      (Ipc.ipc_receive_message (Ipc.ipc_receive_message pmm q blen t).1
        (Ipc.ipc_receive_message pmm q blen t).2.1 blen2 t2).2.2.2 =
        some (m2.message_data, m2.message_length, m2.message_type)) := by
  have hrecv : Ipc.ipc_receive_message pmm q blen t =
      (pmm,
        { q with
          messages := rest
          current_messages := (q.current_messages + U32 - 1) % U32 }, -1, none) := by
    simp only [Ipc.ipc_receive_message, hq]
    rw [if_pos hlen]
  refine ⟨by rw [hrecv], by rw [hrecv], by rw [hrecv], by rw [hrecv], by rw [hrecv], ?_⟩
  intro m2 rest2 blen2 t2 hrest hlen2
  rw [hrecv]
  simp only [Ipc.ipc_receive_message, hrest]
  rw [if_neg (by omega)]
  exact ⟨rfl, rfl⟩

/-- Witness for C10: the lossy receive applied at a concrete two-message
queue. -/
theorem C10_oversized_receive_drops_message_witness :
    (Ipc.ipc_receive_message c8_pmm c10_queue 1 0).2.2.1 = -1 ∧
    (Ipc.ipc_receive_message c8_pmm c10_queue 1 0).2.1.messages = [c10_msg2] ∧
    (Ipc.ipc_receive_message c8_pmm c10_queue 1 0).1 = c8_pmm ∧
    (Ipc.ipc_receive_message (Ipc.ipc_receive_message c8_pmm c10_queue 1 0).1
      (Ipc.ipc_receive_message c8_pmm c10_queue 1 0).2.1 2 0).2.2.2 =
      some (c10_msg2.message_data, c10_msg2.message_length, c10_msg2.message_type) :=
  ⟨(C10_oversized_receive_drops_message c8_pmm c10_queue c9_msg [c10_msg2] 1 0
      (by decide) (by decide)).1,
   (C10_oversized_receive_drops_message c8_pmm c10_queue c9_msg [c10_msg2] 1 0
      (by decide) (by decide)).2.2.2.1,
   (C10_oversized_receive_drops_message c8_pmm c10_queue c9_msg [c10_msg2] 1 0
      (by decide) (by decide)).2.2.1,
   ((C10_oversized_receive_drops_message c8_pmm c10_queue c9_msg [c10_msg2] 1 0
      (by decide) (by decide)).2.2.2.2.2 c10_msg2 [] 2 0 rfl (by decide)).2⟩

end FusionOS
